import Mathlib

/-!
Verification development for the JDownloader2 client wrapper
(`mylar/downloaders/jdownloader2.py`).

The client issues two HTTP GET round trips (link submission and job-status
query) against a JSON-over-HTTP control API and optionally persists the
assigned job id into the `ddl_info` table.  We embed the pure
request/response processing: HTTP outcomes and the JSON-decode step are made
explicit parameters, machine effects (the upsert attempt, whether an HTTP
request was issued) are returned as data, and Python dynamic values decoded
from JSON are modelled by an inductive `JSON` type (Python `None` and JSON
`null` are the same object after `json.loads`, so a single `null`
constructor covers both).
-/

/-- A JSON-decoded Python value: `None`, `bool`, `int`, `str`, `list`,
`dict` (association list, first binding wins as in `List.lookup`). -/
inductive JSON where
  | null : JSON
  | bool (b : Bool) : JSON
  | num (n : Int) : JSON
  | str (s : String) : JSON
  | arr (xs : List JSON) : JSON
  | obj (kvs : List (String × JSON)) : JSON

/-- Python `x is None` on a JSON-decoded value. -/
def JSON.isNull : JSON → Bool
  | .null => true
  | _ => false

/-- Python truthiness of a JSON-decoded value (`bool(x)`): `None`, `False`,
`0`, `''`, `[]`, `{}` are falsy, everything else truthy. -/
def JSON.truthy : JSON → Bool
  | .null => false
  | .bool b => b
  | .num n => n != 0
  | .str s => s != ""
  | .arr xs => !xs.isEmpty
  | .obj kvs => !kvs.isEmpty

/-- Python `d.get(k)` on a dict: the bound value, or `None` when the key is
absent (a present `null` value and an absent key are indistinguishable,
exactly as in Python where both give `None`). -/
def dictGet (kvs : List (String × JSON)) (k : String) : JSON :=
  match kvs.lookup k with
  | some v => v
  | none => .null

/-- Python `d.get(k, default)` on a dict. -/
def dictGetD (kvs : List (String × JSON)) (k : String) (d : JSON) : JSON :=
  match kvs.lookup k with
  | some v => v
  | none => d

/-- Python `a or b` on JSON-decoded values: `a` when truthy, else `b`. -/
def pyOrJ (a b : JSON) : JSON :=
  if a.truthy then a else b

mutual

/-- Python `repr()` of a JSON-decoded value (containers render their
elements by `repr`; string quoting follows the common single-quote case,
which no claim exercises). -/
def pyRepr : JSON → String
  | .null => "None"
  | .bool true => "True"
  | .bool false => "False"
  | .num n => toString n
  | .str s => "'" ++ s ++ "'"
  | .arr xs => "[" ++ pyReprList xs ++ "]"
  | .obj kvs => "\x7b" ++ pyReprPairs kvs ++ "\x7d"

/-- Comma-joined `repr`s of a list's elements. -/
def pyReprList : List JSON → String
  | [] => ""
  | [x] => pyRepr x
  | x :: xs => pyRepr x ++ ", " ++ pyReprList xs

/-- Comma-joined `'key': repr(value)` renderings of a dict's items. -/
def pyReprPairs : List (String × JSON) → String
  | [] => ""
  | [(k, v)] => "'" ++ k ++ "': " ++ pyRepr v
  | (k, v) :: kvs => "'" ++ k ++ "': " ++ pyRepr v ++ ", " ++ pyReprPairs kvs

end

/-- Python `str()` of a JSON-decoded value: the string itself for `str`,
`repr` otherwise (as `str(job_id)` behaves in `submit`). -/
def pyStr : JSON → String
  | .str s => s
  | j => pyRepr j

/-- Outcome of one HTTP GET as the client observes it:
`failure` covers both a raised transport exception and a non-2xx response
(`resp.raise_for_status()`); `success body` is a 2xx response whose body
decoded to `some` JSON value, or `none` when `resp.json()` raised. -/
inductive HttpResult where
  | failure (err : String) : HttpResult
  | success (body : Option JSON) : HttpResult

/-- `payload = resp.json() or {}` with the decode failure handled:
a decode error or a falsy decoded value both give the empty dict. -/
def normPayload (body : Option JSON) : JSON :=
  match body with
  | none => .obj []
  | some j => if j.truthy then j else .obj []

/-- `payload.get('data', payload if isinstance(payload, list) else [])`
followed by `data if isinstance(data, list) else []`, exactly as in
`JDownloader2.query`.  When `payload` is not a dict, the attribute access
`payload.get` raises `AttributeError` (nothing catches it there), which we
surface as `Except.error`. -/
def queryExtract (payload : JSON) : Except String (List JSON) :=
  let dflt : JSON := match payload with
    | .arr _ => payload
    | _ => .arr []
  match payload with
  | .obj kvs =>
      match dictGetD kvs "data" dflt with
      | .arr xs => .ok xs
      | _ => .ok []
  | _ => .error "AttributeError: payload has no attribute get"

/-- `JDownloader2.query(job_ids)`, with the single HTTP round trip an
explicit parameter.  Returns the produced value (or the escaping
`AttributeError`) together with whether an HTTP request was issued. -/
def query (job_ids : List String) (resp : HttpResult) :
    Except String (List JSON) × Bool :=
  match job_ids with
  | [] => (.ok [], false)
  | _ :: _ =>
      match resp with
      | .failure _ => (.ok [], true)
      | .success body => (queryExtract (normPayload body), true)

/-- Python truthiness of an `Optional[str]`: `None` and `''` are falsy. -/
def optTruthy : Option String → Bool
  | none => false
  | some s => s != ""

/-- Python `a or b` on `Optional[str]` operands. -/
def pyOrOpt (a b : Option String) : Option String :=
  if optTruthy a then a else b

/-- `s.rstrip('/')`: drop every trailing `'/'`. -/
def rstripSlash (s : String) : String :=
  String.mk ((s.data.reverse.dropWhile (fun ch => ch = '/')).reverse)

/-- `(base_url or mylar.CONFIG.JD2_URL or '')`: the first truthy operand,
else the final `''`. -/
def rawUrl (base_url config_url : Option String) : String :=
  (pyOrOpt (pyOrOpt base_url config_url) (some "")).getD ""

/-- The base-URL resolution of `JDownloader2.__init__`: resolve the raw
value, trim trailing `'/'`, and raise `ValueError` when the trimmed result
is empty. -/
def resolveBaseUrl (base_url config_url : Option String) :
    Except String String :=
  let trimmed := rstripSlash (rawUrl base_url config_url)
  if trimmed = "" then .error "JD2 URL is not configured" else .ok trimmed

/-- The destination-directory resolution of `JDownloader2.__init__`:
`destination_folder` starts as `None`; a truthy configured root is adopted,
then `os.makedirs` is attempted — on failure (modelled by
`makedirsOk = false`) the exception is caught, a warning logged, and the
folder reset to `None`.  The function is total: construction never fails
on this path. -/
def initDestination (dest_root : Option String) (makedirsOk : Bool) :
    Option String :=
  if optTruthy dest_root then
    if makedirsOk then dest_root else none
  else none

/-- The query object built by `JDownloader2.submit`:
`{assignJobID, autostart, links, packageName}` plus `destinationFolder`
exactly when `self.destination_folder` is truthy. -/
def submitQuery (link package_name : String) (autostart : Bool)
    (destination_folder : Option String) : List (String × JSON) :=
  let base : List (String × JSON) :=
    [("assignJobID", .bool true), ("autostart", .bool autostart),
     ("links", .str link), ("packageName", .str package_name)]
  if optTruthy destination_folder then
    base ++ [("destinationFolder", .str (destination_folder.getD ""))]
  else base

/-- A wall-clock instant at the precision `submit` persists. -/
structure DateTime where
  year : Nat
  month : Nat
  day : Nat
  hour : Nat
  minute : Nat

/-- Zero-pad a numeral to two digits (`strftime` field rendering). -/
def pad2 (n : Nat) : String :=
  if n < 10 then "0" ++ toString n else toString n

/-- Zero-pad a numeral to four digits (`strftime` `%Y`). -/
def pad4 (n : Nat) : String :=
  if n < 10 then "000" ++ toString n
  else if n < 100 then "00" ++ toString n
  else if n < 1000 then "0" ++ toString n
  else toString n

/-- `datetime.datetime.now().strftime('%Y-%m-%d %H:%M')`. -/
def fmtTimestamp (t : DateTime) : String :=
  pad4 t.year ++ "-" ++ pad2 t.month ++ "-" ++ pad2 t.day ++ " "
    ++ pad2 t.hour ++ ":" ++ pad2 t.minute

/-- One `myDB.upsert('ddl_info', values, keys)` call as issued by
`submit`: the table, the three value columns, and the `{'id': record_id}`
key. -/
structure UpsertCall where
  table : String
  jd2_job_id : String
  status : String
  updated_date : String
  key_id : String

/-- The dict returned by `JDownloader2.submit`.  The failure return carries
`status`/`jobid`/`error`, the success return `status`/`jobid`/`payload`;
a field a branch does not set is `none` here. -/
structure SubmitResult where
  status : Bool
  jobid : Option String
  payload : Option JSON
  error : Option String

/-- The job-id extraction of `submit`: `job_id` starts as `None`; when the
payload is a dict, `data = payload.get('data', payload)`, and when `data`
is a dict, `job_id = data.get('id') or data.get('jobID')`. -/
def jobIdFromPayload (payload : JSON) : JSON :=
  match payload with
  | .obj kvs =>
      match dictGetD kvs "data" payload with
      | .obj dk => pyOrJ (dictGet dk "id") (dictGet dk "jobID")
      | _ => .null
  | _ => .null

/-- `str(job_id) if job_id is not None else None`. -/
def jobidOf (j : JSON) : Option String :=
  if j.isNull then none else some (pyStr j)

/-- Everything observable about one `submit` call: the returned dict, the
upsert calls issued against the record store, and the query object sent
(as the single serialized query-string parameter) on the one HTTP GET. -/
structure SubmitOutcome where
  result : SubmitResult
  upserts : List UpsertCall
  sentQuery : List (String × JSON)

/-- `JDownloader2.submit(link, package_name, autostart, record_id)`, with
the single HTTP round trip, the current time, and the fate of the upsert
made explicit.  The code issues at most one upsert, guarded by
`job_id is not None` and a truthy `record_id`; the upsert is wrapped in
`try/except` in the source, so an exception there (`dbFails = true`) is
logged and swallowed, altering neither the issued call nor the returned
dict. -/
def submit (link package_name : String) (autostart : Bool)
    (destination_folder record_id : Option String)
    (resp : HttpResult) (now : DateTime) (dbFails : Bool) : SubmitOutcome :=
  let sent := submitQuery link package_name autostart destination_folder
  match resp with
  | .failure err =>
      {result := {status := false, jobid := none, payload := none,
                  error := some err},
       upserts := [], sentQuery := sent}
  | .success body =>
      let payload := normPayload body
      let job_id := jobIdFromPayload payload
      let calls : List UpsertCall :=
        if job_id.isNull then []
        else if optTruthy record_id then
          [{table := "ddl_info", jd2_job_id := pyStr job_id,
            status := "JD2-Submitted",
            updated_date := fmtTimestamp now,
            key_id := record_id.getD ""}]
        else []
      {result := {status := true, jobid := jobidOf job_id,
                  payload := some payload, error := none},
       upserts := calls, sentQuery := sent}

/-- The dict returned by `JDownloader2.status`; `data` is the raw first
record (`.null` models Python `None` in the not-found shape, which is the
same value JSON `null` decodes to). -/
structure StatusResult where
  found : Bool
  status : JSON
  data : JSON

/-- `package.get('status') if isinstance(package, dict) else None`. -/
def recordStatus (package : JSON) : JSON :=
  match package with
  | .obj kvs => dictGet kvs "status"
  | _ => .null

/-- `JDownloader2.status(job_id)`: `None` short-circuits to the not-found
shape without a request; otherwise `query([job_id])` runs and its result
is inspected (`if not packages` is list truthiness).  The Boolean records
whether an HTTP request was issued; an `AttributeError` escaping `query`
escapes `status` too. -/
def status (job_id : Option String) (resp : HttpResult) :
    Except String (StatusResult × Bool) :=
  match job_id with
  | none => .ok ({found := false, status := .null, data := .null}, false)
  | some jid =>
      match query [jid] resp with
      | (.error e, _) => .error e
      | (.ok packages, made) =>
          match packages with
          | [] => .ok ({found := false, status := .null, data := .null},
                       made)
          | package :: _ =>
              .ok ({found := true, status := recordStatus package,
                    data := package}, made)


/-! ## Claim theorems -/

/-- C8: `query` with an empty `job_ids` list returns the empty sequence and
issues no HTTP request (`if not job_ids: return []` precedes the GET), for
every possible state of the transport. -/
theorem query_empty_ids (resp : HttpResult) :
    query [] resp = (.ok [], false) := rfl

/-- C1 (failing input): with a non-empty `job_ids` list and a successful
GET whose body decodes to the non-empty JSON array `[{"status": "x"}]`,
`query` does not return that array — `payload.get` is attribute access on a
list and raises `AttributeError` (the claim says the sequence is returned
and the call never raises).  The `payload if isinstance(payload, list)`
default in the source is exactly the dead branch this bug shadows. -/
theorem query_raises_on_list_payload :
    query ["1"] (.success (some (.arr [.obj [("status", .str "x")]]))) =
      (.error "AttributeError: payload has no attribute get", true) := rfl

/-- C4: when the GET raises or the response is non-2xx, `submit` returns
`status = false`, no job id, a populated error, and performs no
record-store write.  The model passes the outcome of the single round trip
as one `HttpResult`, so no retry is expressible: the failure return is
immediate. -/
theorem submit_transport_failure (link pkg : String) (auto : Bool)
    (df rid : Option String) (err : String) (now : DateTime) (dbf : Bool) :
    submit link pkg auto df rid (.failure err) now dbf =
      {result := {status := false, jobid := none, payload := none,
                  error := some err},
       upserts := [], sentQuery := submitQuery link pkg auto df} := rfl

/-- C5: when the GET succeeds but the body cannot be decoded as JSON,
`submit` does not fail: the payload becomes the empty mapping and the
result is `status = true`, no job id, payload `{}` (and, with no job id,
no upsert is issued either). -/
theorem submit_decode_failure_ok (link pkg : String) (auto : Bool)
    (df rid : Option String) (now : DateTime) (dbf : Bool) :
    submit link pkg auto df rid (.success none) now dbf =
      {result := {status := true, jobid := none, payload := some (.obj []),
                  error := none},
       upserts := [], sentQuery := submitQuery link pkg auto df} := rfl

/-- C3: when a job id is found and a (truthy) `record_id` was supplied,
exactly one upsert is issued, to table `ddl_info`, keyed `{'id': record_id}`,
setting the job id as a string, the fixed label `'JD2-Submitted'`, and the
current time rendered `'%Y-%m-%d %H:%M'`; the result is `status = true`
with that job id.  The statement holds for every `dbf`, so an exception
raised by the upsert (caught in the source) changes neither the result nor
the issued call. -/
theorem submit_upsert_on_jobid (link pkg : String) (auto : Bool)
    (df : Option String) (rid : String) (hrid : rid ≠ "")
    (body : JSON) (now : DateTime) (dbf : Bool)
    (hj : (jobIdFromPayload (normPayload (some body))).isNull = false) :
    submit link pkg auto df (some rid) (.success (some body)) now dbf =
      {result := {status := true,
                  jobid := some (pyStr (jobIdFromPayload (normPayload (some body)))),
                  payload := some (normPayload (some body)), error := none},
       upserts := [{table := "ddl_info",
                    jd2_job_id := pyStr (jobIdFromPayload (normPayload (some body))),
                    status := "JD2-Submitted",
                    updated_date := fmtTimestamp now,
                    key_id := rid}],
       sentQuery := submitQuery link pkg auto df} := by
  simp [submit, jobidOf, hj, optTruthy, hrid]

/-- Witness for C3 at a concrete input: body `{"data": {"id": "42"}}`,
record id `"r1"`, the upsert exception raised (`dbf = true`) and swallowed. -/
theorem submit_upsert_on_jobid_witness :
    submit "lnk" "pkg" true none (some "r1")
        (.success (some (.obj [("data", .obj [("id", .str "42")])])))
        ⟨2024, 5, 6, 7, 8⟩ true =
      {result := {status := true, jobid := some "42",
                  payload := some (.obj [("data", .obj [("id", .str "42")])]),
                  error := none},
       upserts := [{table := "ddl_info", jd2_job_id := "42",
                    status := "JD2-Submitted",
                    updated_date := "2024-05-06 07:08", key_id := "r1"}],
       sentQuery := submitQuery "lnk" "pkg" true none} := by
  have h := submit_upsert_on_jobid "lnk" "pkg" true none "r1" (by decide)
      (.obj [("data", .obj [("id", .str "42")])]) ⟨2024, 5, 6, 7, 8⟩ true rfl
  exact h.trans (by rfl)

/-- C2 (counterexample): in the payload
`{"data": [1], "id": "42"}` the `data` entry is present but is not a
mapping, and a top-level `id` is present; the claim says extraction falls
back to the top-level `id` ("42"), but `submit` returns no job id at all —
`data = payload.get('data', payload)` only substitutes the top level when
the key is absent. -/
theorem submit_no_toplevel_fallback_cex :
    (submit "lnk" "pkg" true none none
        (.success (some (.obj [("data", .arr [.num 1]), ("id", .str "42")])))
        ⟨2024, 1, 1, 0, 0⟩ false).result.jobid = none ∧
    List.lookup "data" [("data", JSON.arr [JSON.num 1]), ("id", JSON.str "42")] =
      some (.arr [.num 1]) ∧
    dictGet [("data", JSON.arr [JSON.num 1]), ("id", JSON.str "42")] "id" =
      .str "42" :=
  ⟨rfl, rfl, rfl⟩

/-- C2 (amended): for a mapping payload, the job id comes from
`data.id or data.jobID` when the `data` entry is a mapping; the top-level
`id`/`jobID` are consulted only when the `data` key is absent (the payload
itself then plays the role of `data`); when `data` is present but not a
mapping there is no fallback and the job id is absent. -/
theorem submit_jobid_extraction_amended (link pkg : String) (auto : Bool)
    (df : Option String) (kvs : List (String × JSON)) (now : DateTime)
    (dbf : Bool) :
    (kvs.lookup "data" = none →
      (submit link pkg auto df none (.success (some (.obj kvs)))
          now dbf).result.jobid =
        jobidOf (pyOrJ (dictGet kvs "id") (dictGet kvs "jobID"))) ∧
    (∀ d, kvs.lookup "data" = some d → (∀ dk, d ≠ JSON.obj dk) →
      (submit link pkg auto df none (.success (some (.obj kvs)))
          now dbf).result.jobid = none) ∧
    (∀ dk, kvs.lookup "data" = some (JSON.obj dk) →
      (submit link pkg auto df none (.success (some (.obj kvs)))
          now dbf).result.jobid =
        jobidOf (pyOrJ (dictGet dk "id") (dictGet dk "jobID"))) := by
  refine ⟨?_, ?_, ?_⟩
  · intro h
    cases kvs with
    | nil => rfl
    | cons kv rest =>
        simp [submit, normPayload, JSON.truthy, jobIdFromPayload, dictGetD, h]
  · intro d h hd
    cases kvs with
    | nil => simp at h
    | cons kv rest =>
        simp only [submit, normPayload, JSON.truthy, List.isEmpty_cons,
          Bool.not_false, if_pos, jobIdFromPayload, dictGetD, h]
        cases d with
        | obj dk => exact absurd rfl (hd dk)
        | null => rfl
        | bool b => rfl
        | num n => rfl
        | str s => rfl
        | arr xs => rfl
  · intro dk h
    cases kvs with
    | nil => simp at h
    | cons kv rest =>
        simp [submit, normPayload, JSON.truthy, jobIdFromPayload, dictGetD, h]

/-- Witness for C2 (amended) at payload `{"data": {"jobID": 7}}`: the job
id comes from `data.jobID` and is stringified to "7". -/
theorem submit_jobid_extraction_amended_witness :
    (submit "l" "p" true none none
        (.success (some (.obj [("data", .obj [("jobID", .num 7)])])))
        ⟨2024, 1, 1, 0, 0⟩ false).result.jobid = some "7" :=
  ((submit_jobid_extraction_amended "l" "p" true none
      [("data", JSON.obj [("jobID", JSON.num 7)])] ⟨2024, 1, 1, 0, 0⟩
      false).2.2 [("jobID", JSON.num 7)] rfl).trans rfl

/-- C10 (counterexample): in the payload
`{"data": {"id": 0, "jobID": 0}}` both entries are falsy, yet the returned
job id is not absent — `0 or 0` evaluates to `0`, which is not `None`, so
`str(0) = "0"` is returned and the record-store write does occur. -/
theorem submit_falsy_jobid_cex :
    (submit "l" "p" true none (some "rec")
        (.success (some (.obj [("data",
            .obj [("id", .num 0), ("jobID", .num 0)])])))
        ⟨2024, 1, 1, 0, 0⟩ false).result.jobid = some "0" ∧
    (submit "l" "p" true none (some "rec")
        (.success (some (.obj [("data",
            .obj [("id", .num 0), ("jobID", .num 0)])])))
        ⟨2024, 1, 1, 0, 0⟩ false).upserts.length = 1 :=
  ⟨rfl, rfl⟩

/-- C10 (amended): a falsy `id` entry falls through to `jobID` via `or`;
the returned jobid is absent — and the record-store write skipped — exactly
when the resulting value is `None` (i.e. `jobID` missing or null).  A
falsy-but-non-null `jobID` (0, "", false, empty containers) is still
accepted: it is stringified and, with a truthy `record_id`, triggers the
write. -/
theorem submit_falsy_jobid_amended (link pkg : String) (auto : Bool)
    (df : Option String) (rid : String) (hrid : rid ≠ "")
    (dk : List (String × JSON)) (now : DateTime) (dbf : Bool)
    (hid : (dictGet dk "id").truthy = false) :
    ((dictGet dk "jobID").isNull = true →
      (submit link pkg auto df (some rid)
          (.success (some (.obj [("data", .obj dk)]))) now dbf).result.jobid =
        none ∧
      (submit link pkg auto df (some rid)
          (.success (some (.obj [("data", .obj dk)]))) now dbf).upserts = []) ∧
    ((dictGet dk "jobID").isNull = false →
      (submit link pkg auto df (some rid)
          (.success (some (.obj [("data", .obj dk)]))) now dbf).result.jobid =
        some (pyStr (dictGet dk "jobID")) ∧
      (submit link pkg auto df (some rid)
          (.success (some (.obj [("data", .obj dk)]))) now dbf).upserts =
        [{table := "ddl_info", jd2_job_id := pyStr (dictGet dk "jobID"),
          status := "JD2-Submitted", updated_date := fmtTimestamp now,
          key_id := rid}]) := by
  have h0 : jobIdFromPayload (normPayload (some
      (.obj [("data", .obj dk)]))) =
      pyOrJ (dictGet dk "id") (dictGet dk "jobID") := rfl
  have hextract : jobIdFromPayload (normPayload (some
      (.obj [("data", .obj dk)]))) = dictGet dk "jobID" := by
    rw [h0]
    simp [pyOrJ, hid]
  constructor
  · intro hnull
    simp [submit, hextract, hnull, jobidOf]
  · intro hnn
    simp [submit, hextract, hnn, jobidOf, optTruthy, hrid]

/-- Witness for C10 (amended) at `{"data": {"id": "", "jobID": 0}}` with
record id "r": the falsy `id` falls through, `jobID = 0` is not `None`,
so the jobid is "0" and one upsert is issued. -/
theorem submit_falsy_jobid_amended_witness :
    (submit "l" "p" true none (some "r")
        (.success (some (.obj [("data",
            .obj [("id", .str ""), ("jobID", .num 0)])])))
        ⟨2024, 2, 3, 4, 5⟩ false).result.jobid = some "0" ∧
    (submit "l" "p" true none (some "r")
        (.success (some (.obj [("data",
            .obj [("id", .str ""), ("jobID", .num 0)])])))
        ⟨2024, 2, 3, 4, 5⟩ false).upserts =
      [{table := "ddl_info", jd2_job_id := "0", status := "JD2-Submitted",
        updated_date := "2024-02-03 04:05", key_id := "r"}] := by
  have h := (submit_falsy_jobid_amended "l" "p" true none "r" (by decide)
      [("id", JSON.str ""), ("jobID", JSON.num 0)] ⟨2024, 2, 3, 4, 5⟩ false
      rfl).2 rfl
  exact ⟨h.1.trans rfl, h.2.trans (by rfl)⟩

/-- C6: `status(None)` short-circuits to the not-found shape with no HTTP
request; a `query` result of `[]` gives the same not-found shape (after a
request); a non-empty `query` result gives `found = true`, status from the
first record's `status` field, and the first record as data; and that
`status` field is absent whenever the record is not a mapping. -/
theorem status_behaviour (resp : HttpResult) :
    status none resp =
      .ok ({found := false, status := .null, data := .null}, false) ∧
    (∀ jid, (query [jid] resp).1 = .ok [] →
      status (some jid) resp =
        .ok ({found := false, status := .null, data := .null}, true)) ∧
    (∀ jid p rest, (query [jid] resp).1 = .ok (p :: rest) →
      status (some jid) resp =
        .ok ({found := true, status := recordStatus p, data := p}, true)) ∧
    (∀ p, (∀ kvs, p ≠ JSON.obj kvs) → recordStatus p = .null) := by
  refine ⟨rfl, ?_, ?_, ?_⟩
  · intro jid h
    cases resp with
    | failure e => rfl
    | success body =>
        simp only [query] at h
        simp [status, query, h]
  · intro jid p rest h
    cases resp with
    | failure e => simp only [query] at h; cases h
    | success body =>
        simp only [query] at h
        simp [status, query, h]
  · intro p hp
    cases p with
    | obj kvs => exact absurd rfl (hp kvs)
    | null => rfl
    | bool b => rfl
    | num n => rfl
    | str s => rfl
    | arr xs => rfl

/-- Witness for C6 at a concrete round trip: body
`{"data": [{"status": "FIN"}]}` for job id "9" yields found with status
"FIN" and the record as data. -/
theorem status_behaviour_witness :
    status (some "9")
        (.success (some (.obj [("data", .arr [.obj [("status", .str "FIN")]])]))) =
      .ok ({found := true, status := .str "FIN",
            data := .obj [("status", .str "FIN")]}, true) :=
  ((status_behaviour
      (.success (some (.obj [("data",
        .arr [.obj [("status", .str "FIN")]])])))).2.2.1 "9"
      (.obj [("status", .str "FIN")]) [] rfl).trans rfl

/-- C7 (counterexample): `base_url = "/"` is a non-empty explicit value,
yet construction fails — `'/'.rstrip('/')` is empty, so the `ValueError`
is raised even though a value was present. -/
theorem resolveBaseUrl_slash_cex :
    ("/" : String) ≠ "" ∧
    resolveBaseUrl (some "/") none = .error "JD2 URL is not configured" :=
  ⟨by decide, rfl⟩

/-- Every trailing character dropped: `rstripSlash s` is empty exactly when
`s` consists only of `'/'` characters. -/
theorem rstripSlash_eq_empty_iff (s : String) :
    rstripSlash s = "" ↔ ∀ ch ∈ s.data, ch = '/' := by
  simp [rstripSlash, String.ext_iff, List.dropWhile_eq_nil_iff]

/-- C7 (amended): construction succeeds exactly when the resolved raw value
(explicit argument if truthy, else the configured value, else `''`)
contains some character other than `'/'`; the stored base URL is then that
value with trailing `'/'` trimmed.  (The claim's "non-empty" is too weak: a
non-empty value made only of separators, such as "/", still fails.) -/
theorem resolveBaseUrl_amended (b c : Option String) :
    ((∃ u, resolveBaseUrl b c = .ok u) ↔
      ∃ ch ∈ (rawUrl b c).data, ch ≠ '/') ∧
    (∀ u, resolveBaseUrl b c = .ok u → u = rstripSlash (rawUrl b c)) := by
  unfold resolveBaseUrl
  by_cases h : rstripSlash (rawUrl b c) = ""
  · rw [if_pos h]
    constructor
    · constructor
      · rintro ⟨u, hu⟩; cases hu
      · rintro ⟨ch, hch, hne⟩
        exact absurd ((rstripSlash_eq_empty_iff _).mp h ch hch) hne
    · intro u hu; cases hu
  · rw [if_neg h]
    constructor
    · constructor
      · intro _
        by_contra hall
        push_neg at hall
        exact h ((rstripSlash_eq_empty_iff _).mpr hall)
      · intro _; exact ⟨_, rfl⟩
    · intro u hu
      cases hu
      rfl

/-- Witness for C7 (amended): the resolved URL for an explicit
`"http://h:3128/"` is the trimmed `"http://h:3128"`. -/
theorem resolveBaseUrl_amended_witness :
    ("http://h:3128" : String) = rstripSlash (rawUrl (some "http://h:3128/") none) :=
  (resolveBaseUrl_amended (some "http://h:3128/") none).2 "http://h:3128" rfl

/-- C9: with a (truthy) configured destination root, a failed directory
creation is non-fatal — `initDestination` still returns (yielding `None`) —
and every subsequent submit query object omits the `destinationFolder` key;
a successful creation keeps the root and every submit query object carries
`destinationFolder` bound to it. -/
theorem destinationFolder_presence (root : String) (hroot : root ≠ "")
    (link pkg : String) (auto : Bool) :
    (initDestination (some root) false = none ∧
      (submitQuery link pkg auto (initDestination (some root) false)).lookup
        "destinationFolder" = none) ∧
    (initDestination (some root) true = some root ∧
      (submitQuery link pkg auto (initDestination (some root) true)).lookup
        "destinationFolder" = some (.str root)) := by
  have ht : optTruthy (some root) = true := by
    simp [optTruthy, hroot]
  have hfail : initDestination (some root) false = none := by
    unfold initDestination
    split <;> rfl
  have hok : initDestination (some root) true = some root := by
    simp [initDestination, ht]
  refine ⟨⟨hfail, ?_⟩, ⟨hok, ?_⟩⟩
  · rw [hfail]
    rfl
  · rw [hok]
    unfold submitQuery
    rw [ht]
    rfl

/-- Witness for C9 with the concrete root "/downloads". -/
theorem destinationFolder_presence_witness :
    (submitQuery "l" "p" true (initDestination (some "/downloads") false)).lookup
        "destinationFolder" = none ∧
    (submitQuery "l" "p" true (initDestination (some "/downloads") true)).lookup
        "destinationFolder" = some (.str "/downloads") := by
  have h := destinationFolder_presence "/downloads" (by decide) "l" "p" true
  exact ⟨h.1.2, h.2.2⟩
